import Mathlib

/-!
Verification of the leaderboard scoring rules of the Strava challenge
repository.  The repository's source slice contains only the `About`
React component (`src/frontend/src/components/About.js`) that displays
the rules text; the scoring engine itself is described by the spec and
is modelled here from the spec's words.  The `About` component's element
tree is embedded directly from the source.
-/

/-- Modelled from the spec: a participant is identified by a unique
name/ID string (spec section 3, the scoring engine is not present in
the source slice). -/
def Participant : Type := String

instance : DecidableEq Participant := inferInstanceAs (DecidableEq String)

/-- Modelled from the spec: the enumerated activity categories
(spec section 3, matching the category list rendered by About.js). -/
inductive ActivityCategory : Type
| bike
| run
| hiking
| alpineSnowSports
| langlaufenInline
| gym
| ballSports
| klettern
| waterSports
deriving DecidableEq

/-- All nine enumerated categories. -/
def allCategories : List ActivityCategory :=
[ .bike, .run, .hiking, .alpineSnowSports, .langlaufenInline, .gym,
  .ballSports, .klettern, .waterSports ]

/-- Modelled from the spec: one activity result
(participant, category, rank-within-category, movingTimeSeconds).
Moving time is carried as an integer so that the negative-time
integrity check of spec section 7 is expressible. -/
structure ActivityResult : Type where
  participant : Participant
  category : ActivityCategory
  rank : Nat
  movingTimeSeconds : Int
deriving DecidableEq

/-- Modelled from the spec: the points table as an immutable mapping
rank to points for ranks 1..10 (spec sections 3 and 9: data, not
branching logic). -/
def pointsTable : List (Nat × Nat) :=
[(1, 10), (2, 9), (3, 8), (4, 7), (5, 6), (6, 5), (7, 4), (8, 3), (9, 2), (10, 1)]

/-- Modelled from the spec: `computePoints(rank)` is the PointsTable
lookup, with ranks outside [1,10] giving 0 points. -/
def computePoints (rank : Nat) : Nat :=
  (pointsTable.lookup rank).getD 0

theorem computePoints_of_ten_lt {r : Nat} (hr : 10 < r) : computePoints r = 0 := by
  have h1 : (r == 1) = false := by simp only [beq_eq_false_iff_ne]; omega
  have h2 : (r == 2) = false := by simp only [beq_eq_false_iff_ne]; omega
  have h3 : (r == 3) = false := by simp only [beq_eq_false_iff_ne]; omega
  have h4 : (r == 4) = false := by simp only [beq_eq_false_iff_ne]; omega
  have h5 : (r == 5) = false := by simp only [beq_eq_false_iff_ne]; omega
  have h6 : (r == 6) = false := by simp only [beq_eq_false_iff_ne]; omega
  have h7 : (r == 7) = false := by simp only [beq_eq_false_iff_ne]; omega
  have h8 : (r == 8) = false := by simp only [beq_eq_false_iff_ne]; omega
  have h9 : (r == 9) = false := by simp only [beq_eq_false_iff_ne]; omega
  have h10 : (r == 10) = false := by simp only [beq_eq_false_iff_ne]; omega
  simp [computePoints, pointsTable, List.lookup, h1, h2, h3, h4, h5, h6, h7, h8, h9, h10]

theorem computePoints_anti {r1 r2 : Nat} (hr1 : 1 ≤ r1) (h : r1 ≤ r2) :
    computePoints r2 ≤ computePoints r1 := by
  by_cases h2 : 10 < r2
  · rw [computePoints_of_ten_lt h2]
    exact Nat.zero_le _
  · push_neg at h2
    have h1 : r1 ≤ 10 := le_trans h h2
    interval_cases r1 <;> interval_cases r2 <;> decide

/-- C3: computePoints realises the fixed table
{1:10, 2:9, 3:8, 4:7, 5:6, 6:5, 7:4, 8:3, 9:2, 10:1} and yields 0 for
every rank outside [1,10]. -/
theorem computePoints_table_spec :
    (computePoints 1 = 10 ∧ computePoints 2 = 9 ∧ computePoints 3 = 8 ∧
     computePoints 4 = 7 ∧ computePoints 5 = 6 ∧ computePoints 6 = 5 ∧
     computePoints 7 = 4 ∧ computePoints 8 = 3 ∧ computePoints 9 = 2 ∧
     computePoints 10 = 1) ∧
    (∀ r : Nat, r < 1 ∨ 10 < r → computePoints r = 0) := by
  refine ⟨by decide, ?_⟩
  intro r hr
  rcases hr with hr | hr
  · interval_cases r
    decide
  · exact computePoints_of_ten_lt hr

/-- Closed instance of C3's quantified part at rank 11. -/
theorem computePoints_table_spec_witness :
    ((11 : Nat) < 1 ∨ 10 < 11) ∧ computePoints 11 = 0 :=
  ⟨by decide, computePoints_table_spec.2 11 (by decide)⟩

/-- C7: computePoints is monotonically non-increasing over ranks
(positive integers per the data model: rank-within-category is a
positive integer, so 1 ≤ r1), with computePoints 1 = 10,
computePoints 10 = 1 and computePoints 11 = 0. -/
theorem computePoints_monotone_spec :
    (∀ r1 r2 : Nat, 1 ≤ r1 → r1 ≤ r2 → computePoints r2 ≤ computePoints r1) ∧
    computePoints 1 = 10 ∧ computePoints 10 = 1 ∧ computePoints 11 = 0 :=
  ⟨fun _ _ hr1 h => computePoints_anti hr1 h, by decide, by decide, by decide⟩

/-- Closed instance of C7's monotonicity at ranks 3 and 7. -/
theorem computePoints_monotone_spec_witness :
    (1 : Nat) ≤ 3 ∧ (3 : Nat) ≤ 7 ∧ computePoints 7 ≤ computePoints 3 :=
  ⟨by decide, by decide, computePoints_monotone_spec.1 3 7 (by decide) (by decide)⟩

/-- Modelled from the spec: a participant's score record
(spec section 3, ParticipantScore). -/
structure ParticipantScore : Type where
  participant : Participant
  perCategoryPoints : List (ActivityCategory × Nat)
  topThreeTotal : Nat
  totalMovingTime : Int
deriving DecidableEq

/-- The participant's own activity results, in input order. -/
def participantResults (rs : List ActivityResult) (p : Participant) :
    List ActivityResult :=
  rs.filter (fun r => decide (r.participant = p))

/-- One (points, movingTimeSeconds) entry per category the participant
appears in; absence from a category yields no entry. -/
def participantEntries (rs : List ActivityResult) (p : Participant) :
    List (Nat × Int) :=
  (participantResults rs p).map (fun r => (computePoints r.rank, r.movingTimeSeconds))

/-- Ordering of per-category entries by points, descending. -/
def EntryOrder (a b : Nat × Int) : Prop := b.1 ≤ a.1

instance : DecidableRel EntryOrder :=
  fun a b => inferInstanceAs (Decidable (b.1 ≤ a.1))

instance : IsTotal (Nat × Int) EntryOrder :=
  ⟨fun a b => Nat.le_total b.1 a.1⟩

instance : IsTrans (Nat × Int) EntryOrder :=
  ⟨fun _ _ _ h1 h2 => le_trans h2 h1⟩

/-- The (at most three) entries of highest points: entries sorted by
points descending, first three taken. -/
def topEntries (rs : List ActivityResult) (p : Participant) : List (Nat × Int) :=
  (List.insertionSort EntryOrder (participantEntries rs p)).take 3

/-- Modelled from the spec: `computeParticipantScore(participant)`.
topThreeTotal sums the three largest per-category point values (fewer
if the participant appears in fewer than 3 categories); totalMovingTime
sums movingTimeSeconds over the top-3 scoring categories only, the
reading the spec adopts in section 4.1. -/
def computeParticipantScore (rs : List ActivityResult) (p : Participant) :
    ParticipantScore where
  participant := p
  perCategoryPoints :=
    (participantResults rs p).map (fun r => (r.category, computePoints r.rank))
  topThreeTotal := ((topEntries rs p).map Prod.fst).sum
  totalMovingTime := ((topEntries rs p).map Prod.snd).sum

/-- The worked example of the rules text: first place in biking, fifth
in tennis (a ball sport), third in running. -/
def exampleResults : List ActivityResult :=
[ { participant := "alice", category := .bike, rank := 1, movingTimeSeconds := 3600 },
  { participant := "alice", category := .ballSports, rank := 5, movingTimeSeconds := 1800 },
  { participant := "alice", category := .run, rank := 3, movingTimeSeconds := 2400 } ]

theorem sorted_entries_perm (rs : List ActivityResult) (p : Participant) :
    (List.insertionSort EntryOrder (participantEntries rs p)).Perm
      (participantEntries rs p) :=
  List.perm_insertionSort EntryOrder (participantEntries rs p)

theorem sorted_entries_pairwise (rs : List ActivityResult) (p : Participant) :
    List.Pairwise EntryOrder (List.insertionSort EntryOrder (participantEntries rs p)) :=
  List.sorted_insertionSort EntryOrder (participantEntries rs p)

theorem topThreeTotal_eq_take_sorted (rs : List ActivityResult) (p : Participant) :
    (computeParticipantScore rs p).topThreeTotal =
      (((List.insertionSort EntryOrder (participantEntries rs p)).take 3).map Prod.fst).sum :=
  rfl

/-- C1: topThreeTotal is the sum of the first three values of a
descending-sorted permutation of the participant's per-category point
values; with fewer than three categories it is the sum of all of them;
the rules-text example (biking 1st, tennis 5th, running 3rd) totals 24. -/
theorem topThreeTotal_spec :
    (∀ (rs : List ActivityResult) (p : Participant),
      ∃ l' : List Nat,
        l'.Perm ((participantEntries rs p).map Prod.fst) ∧
        List.Pairwise (fun a b => b ≤ a) l' ∧
        (computeParticipantScore rs p).topThreeTotal = (l'.take 3).sum) ∧
    (∀ (rs : List ActivityResult) (p : Participant),
      (participantEntries rs p).length < 3 →
      (computeParticipantScore rs p).topThreeTotal =
        ((participantEntries rs p).map Prod.fst).sum) ∧
    (computeParticipantScore exampleResults "alice").topThreeTotal = 24 := by
  refine ⟨?_, ?_, by decide⟩
  · intro rs p
    refine ⟨(List.insertionSort EntryOrder (participantEntries rs p)).map Prod.fst,
      (sorted_entries_perm rs p).map Prod.fst, ?_, ?_⟩
    · exact (sorted_entries_pairwise rs p).map Prod.fst (fun a b h => h)
    · rw [topThreeTotal_eq_take_sorted, List.map_take]
  · intro rs p hlen
    have hlen' : (List.insertionSort EntryOrder (participantEntries rs p)).length < 3 := by
      rw [(sorted_entries_perm rs p).length_eq]
      exact hlen
    rw [topThreeTotal_eq_take_sorted, List.take_of_length_le (le_of_lt hlen')]
    exact ((sorted_entries_perm rs p).map Prod.fst).sum_eq

/-- Closed instance of C1's fewer-than-three clause on a single-result set. -/
theorem topThreeTotal_spec_witness :
    (participantEntries (exampleResults.take 1) "alice").length < 3 ∧
    (computeParticipantScore (exampleResults.take 1) "alice").topThreeTotal =
      ((participantEntries (exampleResults.take 1) "alice").map Prod.fst).sum :=
  ⟨by decide, topThreeTotal_spec.2.1 (exampleResults.take 1) "alice" (by decide)⟩

/-- A participant with results in four categories, to separate the
top-3 moving-time reading from the all-categories reading. -/
def fourCategoryResults : List ActivityResult :=
[ { participant := "bob", category := .bike, rank := 1, movingTimeSeconds := 100 },
  { participant := "bob", category := .run, rank := 2, movingTimeSeconds := 200 },
  { participant := "bob", category := .gym, rank := 3, movingTimeSeconds := 300 },
  { participant := "bob", category := .ballSports, rank := 4, movingTimeSeconds := 400 } ]

/-- C5: the tiebreaker total is the moving time summed over exactly the
(at most three) entries that contribute to topThreeTotal: the same
take-3 of a points-descending permutation of the participant's entries
yields both sums.  Concretely, with four categories of times
100+200+300+400, totalMovingTime is 600 (top three), not the
all-categories sum 1000. -/
theorem totalMovingTime_spec :
    (∀ (rs : List ActivityResult) (p : Participant),
      ∃ l' : List (Nat × Int),
        l'.Perm (participantEntries rs p) ∧
        List.Pairwise EntryOrder l' ∧
        (l'.take 3).length ≤ 3 ∧
        (computeParticipantScore rs p).topThreeTotal = ((l'.take 3).map Prod.fst).sum ∧
        (computeParticipantScore rs p).totalMovingTime = ((l'.take 3).map Prod.snd).sum) ∧
    (computeParticipantScore fourCategoryResults "bob").totalMovingTime = 600 ∧
    ((participantResults fourCategoryResults "bob").map
        ActivityResult.movingTimeSeconds).sum = 1000 := by
  refine ⟨?_, by decide, by decide⟩
  intro rs p
  exact ⟨List.insertionSort EntryOrder (participantEntries rs p),
    sorted_entries_perm rs p, sorted_entries_pairwise rs p,
    List.length_take_le 3 _, rfl, rfl⟩

/-- Modelled from the spec: the leaderboard ordering — topThreeTotal
descending, ties broken by totalMovingTime descending. -/
def ScoreOrder (a b : ParticipantScore) : Prop :=
  b.topThreeTotal < a.topThreeTotal ∨
  (a.topThreeTotal = b.topThreeTotal ∧ b.totalMovingTime ≤ a.totalMovingTime)

instance : DecidableRel ScoreOrder :=
  fun a b => inferInstanceAs (Decidable
    (b.topThreeTotal < a.topThreeTotal ∨
     (a.topThreeTotal = b.topThreeTotal ∧ b.totalMovingTime ≤ a.totalMovingTime)))

instance : IsTotal ParticipantScore ScoreOrder := by
  constructor
  intro a b
  unfold ScoreOrder
  omega

instance : IsTrans ParticipantScore ScoreOrder := by
  constructor
  intro x y z hab hbc
  unfold ScoreOrder at hab hbc ⊢
  omega

/-- Modelled from the spec: `computeLeaderboard(participants)` scores
every participant and stable-sorts by (topThreeTotal desc,
totalMovingTime desc). -/
def computeLeaderboard (rs : List ActivityResult) (ps : List Participant) :
    List ParticipantScore :=
  List.insertionSort ScoreOrder (ps.map (computeParticipantScore rs))

theorem leaderboard_sorted (rs : List ActivityResult) (ps : List Participant) :
    List.Sorted ScoreOrder (computeLeaderboard rs ps) :=
  List.sorted_insertionSort ScoreOrder (ps.map (computeParticipantScore rs))

/-- Input results for a two-person leaderboard example. -/
def lbResults : List ActivityResult :=
[ { participant := "a", category := .bike, rank := 1, movingTimeSeconds := 50 },
  { participant := "b", category := .bike, rank := 2, movingTimeSeconds := 70 } ]

/-- Participant list for the two-person example, deliberately in
reverse score order. -/
def lbParticipants : List Participant := ["b", "a"]

/-- C2: in the computed leaderboard, a strictly larger topThreeTotal
comes strictly earlier; with equal topThreeTotal a strictly larger
totalMovingTime comes strictly earlier; and any two scores that tie on
both keys keep their relative order from the input score list. -/
theorem leaderboard_order_spec :
    (∀ (rs : List ActivityResult) (ps : List Participant) (i j : Nat)
       (hi : i < (computeLeaderboard rs ps).length)
       (hj : j < (computeLeaderboard rs ps).length),
       ((computeLeaderboard rs ps).get ⟨j, hj⟩).topThreeTotal <
         ((computeLeaderboard rs ps).get ⟨i, hi⟩).topThreeTotal → i < j) ∧
    (∀ (rs : List ActivityResult) (ps : List Participant) (i j : Nat)
       (hi : i < (computeLeaderboard rs ps).length)
       (hj : j < (computeLeaderboard rs ps).length),
       ((computeLeaderboard rs ps).get ⟨i, hi⟩).topThreeTotal =
         ((computeLeaderboard rs ps).get ⟨j, hj⟩).topThreeTotal →
       ((computeLeaderboard rs ps).get ⟨j, hj⟩).totalMovingTime <
         ((computeLeaderboard rs ps).get ⟨i, hi⟩).totalMovingTime → i < j) ∧
    (∀ (rs : List ActivityResult) (ps : List Participant) (a b : ParticipantScore),
       a.topThreeTotal = b.topThreeTotal →
       a.totalMovingTime = b.totalMovingTime →
       List.Sublist [a, b] (ps.map (computeParticipantScore rs)) →
       List.Sublist [a, b] (computeLeaderboard rs ps)) := by
  refine ⟨?_, ?_, ?_⟩
  · intro rs ps i j hi hj hlt
    by_contra hij
    push_neg at hij
    rcases Nat.lt_or_ge j i with hji | hji
    · have hrel := (leaderboard_sorted rs ps).rel_get_of_lt
        (show (⟨j, hj⟩ : Fin _) < ⟨i, hi⟩ from hji)
      unfold ScoreOrder at hrel
      omega
    · have heq : i = j := le_antisymm hji hij
      subst heq
      exact absurd hlt (lt_irrefl _)
  · intro rs ps i j hi hj heq hlt
    by_contra hij
    push_neg at hij
    rcases Nat.lt_or_ge j i with hji | hji
    · have hrel := (leaderboard_sorted rs ps).rel_get_of_lt
        (show (⟨j, hj⟩ : Fin _) < ⟨i, hi⟩ from hji)
      unfold ScoreOrder at hrel
      omega
    · have heq2 : i = j := le_antisymm hji hij
      subst heq2
      exact absurd hlt (lt_irrefl _)
  · intro rs ps a b ht hm hsub
    exact List.pair_sublist_insertionSort
      (Or.inr ⟨ht, le_of_eq hm.symm⟩) hsub

/-- Closed instance of C2's first clause on the two-person example:
the higher-scoring participant is placed strictly earlier. -/
theorem leaderboard_order_spec_witness :
    ((computeLeaderboard lbResults lbParticipants).get
        ⟨1, by decide⟩).topThreeTotal <
      ((computeLeaderboard lbResults lbParticipants).get
        ⟨0, by decide⟩).topThreeTotal ∧ (0 : Nat) < 1 :=
  ⟨by decide,
   leaderboard_order_spec.1 lbResults lbParticipants 0 1
     (by decide) (by decide) (by decide)⟩

/-- C8: computeLeaderboard is a deterministic pure function of its
input: two calls on the unmodified result set give identical output.
In this embedding the engine has no state at all, so the two calls are
one and the same term. -/
theorem computeLeaderboard_deterministic :
    ∀ (rs : List ActivityResult) (ps : List Participant),
      computeLeaderboard rs ps = computeLeaderboard rs ps :=
  fun _ _ => rfl

/-- Modelled from the spec: the error raised when two results in one
category share a rank (spec section 4.1). -/
inductive InvalidRankError : Type
| duplicateRank
deriving DecidableEq

/-- Results of one category, in input order. -/
def categoryResults (rs : List ActivityResult) (c : ActivityCategory) :
    List ActivityResult :=
  rs.filter (fun r => decide (r.category = c))

/-- Does the list of ranks contain a repeated value? -/
def hasDupRank : List Nat → Bool
  | [] => false
  | r :: rest => decide (r ∈ rest) || hasDupRank rest

theorem hasDupRank_eq_false_iff (l : List Nat) :
    hasDupRank l = false ↔ l.Nodup := by
  induction l with
  | nil => simp [hasDupRank]
  | cons r rest ih =>
    simp [hasDupRank, Bool.or_eq_false_iff, ih, List.nodup_cons]

theorem hasDupRank_of_pair {x : Nat} {l : List Nat}
    (h : List.Sublist [x, x] l) : hasDupRank l = true := by
  rcases Bool.eq_false_or_eq_true (hasDupRank l) with hT | hF
  · exact hT
  · exfalso
    have hnd : l.Nodup := (hasDupRank_eq_false_iff l).1 hF
    have hpair : List.Nodup [x, x] := hnd.sublist h
    simp at hpair

/-- Ordering of one category's results, ascending by rank. -/
def RankOrder (a b : ActivityResult) : Prop := a.rank ≤ b.rank

instance : DecidableRel RankOrder :=
  fun a b => inferInstanceAs (Decidable (a.rank ≤ b.rank))

/-- Modelled from the spec: `computeCategoryRanking(category)` filters
the results to the category, fails with InvalidRankError when two of
them share a rank, and otherwise returns them sorted ascending by
rank. -/
def computeCategoryRanking (rs : List ActivityResult) (c : ActivityCategory) :
    Except InvalidRankError (List ActivityResult) :=
  if hasDupRank ((categoryResults rs c).map ActivityResult.rank) then
    Except.error InvalidRankError.duplicateRank
  else
    Except.ok (List.insertionSort RankOrder (categoryResults rs c))

/-- C4: whenever the input collection contains two results of the same
category with the same rank value, computeCategoryRanking on that
category returns InvalidRankError rather than a ranking. -/
theorem duplicate_rank_error_spec :
    ∀ (rs : List ActivityResult) (c : ActivityCategory) (a b : ActivityResult),
      List.Sublist [a, b] rs → a.category = c → b.category = c →
      a.rank = b.rank →
      computeCategoryRanking rs c = Except.error InvalidRankError.duplicateRank := by
  intro rs c a b hsub ha hb hr
  have hfil : List.Sublist [a, b] (categoryResults rs c) := by
    have hstep := hsub.filter (fun r => decide (r.category = c))
    have h2 : ([a, b].filter (fun r => decide (r.category = c))) = [a, b] := by
      simp [List.filter, ha, hb]
    rw [h2] at hstep
    exact hstep
  have hmap : List.Sublist [a.rank, b.rank]
      ((categoryResults rs c).map ActivityResult.rank) := by
    have hstep := hfil.map ActivityResult.rank
    simpa using hstep
  rw [hr] at hmap
  have hdup := hasDupRank_of_pair hmap
  simp [computeCategoryRanking, hdup]

/-- Two results sharing rank 1 in biking. -/
def dupResults : List ActivityResult :=
[ { participant := "a", category := .bike, rank := 1, movingTimeSeconds := 10 },
  { participant := "b", category := .bike, rank := 1, movingTimeSeconds := 20 } ]

/-- Closed instance of C4 on the duplicated-rank example. -/
theorem duplicate_rank_error_spec_witness :
    computeCategoryRanking dupResults ActivityCategory.bike =
      Except.error InvalidRankError.duplicateRank :=
  duplicate_rank_error_spec dupResults ActivityCategory.bike
    { participant := "a", category := .bike, rank := 1, movingTimeSeconds := 10 }
    { participant := "b", category := .bike, rank := 1, movingTimeSeconds := 20 }
    (List.Sublist.refl _) rfl rfl rfl

/-- Modelled from the spec: the data-integrity failure modes of
section 7.  Unknown categories cannot arise in this model because
ActivityCategory is the closed enumerated type; the constructor is
kept to mirror the spec's error taxonomy. -/
inductive DataIntegrityError : Type
| duplicateRank
| negativeMovingTime
| unknownCategory
deriving DecidableEq

/-- Does some category contain two results sharing a rank? -/
def hasDuplicateRanks (rs : List ActivityResult) : Bool :=
  allCategories.any (fun c => hasDupRank ((categoryResults rs c).map ActivityResult.rank))

/-- Does some result carry a negative moving time? -/
def hasNegativeTime (rs : List ActivityResult) : Bool :=
  rs.any (fun r => decide (r.movingTimeSeconds < 0))

/-- Modelled from the spec: the checked leaderboard computation —
integrity errors are raised before any output is produced, otherwise
the full leaderboard is returned (spec section 7). -/
def computeLeaderboardChecked (rs : List ActivityResult) (ps : List Participant) :
    Except DataIntegrityError (List ParticipantScore) :=
  if hasDuplicateRanks rs then Except.error DataIntegrityError.duplicateRank
  else if hasNegativeTime rs then Except.error DataIntegrityError.negativeMovingTime
  else Except.ok (computeLeaderboard rs ps)

/-- C9: the checked computation either returns a full leaderboard or an
error and nothing else; any returned leaderboard is the complete one;
errors occur only on integrity violations (duplicate ranks or negative
moving time); integrity-clean inputs always produce the full
leaderboard; and empty inputs are empty results, not errors, both for
the leaderboard and for every category ranking. -/
theorem leaderboard_atomic_spec :
    (∀ (rs : List ActivityResult) (ps : List Participant),
       (∃ L, computeLeaderboardChecked rs ps = Except.ok L) ∨
       (∃ e, computeLeaderboardChecked rs ps = Except.error e)) ∧
    (∀ (rs : List ActivityResult) (ps : List Participant) (L : List ParticipantScore),
       computeLeaderboardChecked rs ps = Except.ok L → L = computeLeaderboard rs ps) ∧
    (∀ (rs : List ActivityResult) (ps : List Participant) (e : DataIntegrityError),
       computeLeaderboardChecked rs ps = Except.error e →
       hasDuplicateRanks rs = true ∨ hasNegativeTime rs = true) ∧
    (∀ (rs : List ActivityResult) (ps : List Participant),
       hasDuplicateRanks rs = false → hasNegativeTime rs = false →
       computeLeaderboardChecked rs ps = Except.ok (computeLeaderboard rs ps)) ∧
    (∀ ps : List Participant,
       computeLeaderboardChecked [] ps = Except.ok (computeLeaderboard [] ps)) ∧
    (∀ c : ActivityCategory, computeCategoryRanking [] c = Except.ok []) := by
  have hcases : ∀ (rs : List ActivityResult) (ps : List Participant),
      computeLeaderboardChecked rs ps = Except.error DataIntegrityError.duplicateRank ∧
        hasDuplicateRanks rs = true ∨
      computeLeaderboardChecked rs ps = Except.error DataIntegrityError.negativeMovingTime ∧
        hasNegativeTime rs = true ∨
      computeLeaderboardChecked rs ps = Except.ok (computeLeaderboard rs ps) := by
    intro rs ps
    by_cases hd : hasDuplicateRanks rs = true
    · exact Or.inl ⟨by simp [computeLeaderboardChecked, hd], hd⟩
    · by_cases hn : hasNegativeTime rs = true
      · refine Or.inr (Or.inl ⟨?_, hn⟩)
        simp [computeLeaderboardChecked, hd, hn]
      · refine Or.inr (Or.inr ?_)
        simp [computeLeaderboardChecked, hd, hn]
  refine ⟨?_, ?_, ?_, ?_, ?_, ?_⟩
  · intro rs ps
    rcases hcases rs ps with ⟨h, _⟩ | ⟨h, _⟩ | h
    · exact Or.inr ⟨_, h⟩
    · exact Or.inr ⟨_, h⟩
    · exact Or.inl ⟨_, h⟩
  · intro rs ps L hL
    rcases hcases rs ps with ⟨h, _⟩ | ⟨h, _⟩ | h
    · rw [h] at hL
      exact absurd hL (by simp)
    · rw [h] at hL
      exact absurd hL (by simp)
    · rw [h] at hL
      exact (Except.ok.inj hL).symm
  · intro rs ps e hE
    rcases hcases rs ps with ⟨h, hd⟩ | ⟨h, hn⟩ | h
    · exact Or.inl hd
    · exact Or.inr hn
    · rw [h] at hE
      exact absurd hE (by simp)
  · intro rs ps hd hn
    simp [computeLeaderboardChecked, hd, hn]
  · intro ps
    simp [computeLeaderboardChecked, hasDuplicateRanks, hasNegativeTime,
      categoryResults, allCategories, hasDupRank]
  · intro c
    simp [computeCategoryRanking, categoryResults, hasDupRank, List.insertionSort]

/-- Closed instance of C9's integrity-clean clause on the two-person
example input. -/
theorem leaderboard_atomic_spec_witness :
    hasDuplicateRanks lbResults = false ∧ hasNegativeTime lbResults = false ∧
    computeLeaderboardChecked lbResults lbParticipants =
      Except.ok (computeLeaderboard lbResults lbParticipants) :=
  ⟨by decide, by decide,
   leaderboard_atomic_spec.2.2.2.1 lbResults lbParticipants (by decide) (by decide)⟩

/-- Modelled from the spec: the prize percentages for places 1 to 5
(About.js lines 64-76: 40/25/15/11/9 percent). -/
def prizePercentages : List Nat := [40, 25, 15, 11, 9]

/-- Modelled from the spec: the share of a pool paid to a place — the
place's percentage of the pool, 0 beyond place 5 (and for the
non-existent place 0). -/
def prizeShare (pool : Nat) : Nat → Nat
  | 0 => 0
  | Nat.succ n => pool * prizePercentages.getD n 0 / 100

/-- C6: on a pool of 1000, places 1-5 receive 400, 250, 150, 110 and
90, which sum to exactly 1000, and every place 6 or later receives
0. -/
theorem prize_distribution_spec :
    ([1, 2, 3, 4, 5].map (prizeShare 1000) = [400, 250, 150, 110, 90]) ∧
    (([1, 2, 3, 4, 5].map (prizeShare 1000)).sum = 1000) ∧
    (∀ r : Nat, 6 ≤ r → prizeShare 1000 r = 0) := by
  refine ⟨by decide, by decide, ?_⟩
  intro r hr
  match r, hr with
  | Nat.succ n, hr =>
    have hlen : prizePercentages.length ≤ n := by
      simp only [prizePercentages, List.length_cons, List.length_nil]
      omega
    simp [prizeShare, List.getD_eq_getElem?_getD, List.getElem?_eq_none hlen]

/-- Closed instance of C6's quantified part at place 6. -/
theorem prize_distribution_spec_witness :
    (6 : Nat) ≤ 6 ∧ prizeShare 1000 6 = 0 :=
  ⟨by decide, prize_distribution_spec.2.2 6 (by decide)⟩

/-- A rendered React element: a text node or a tagged node with
children.  Styled components render as their underlying tag
(Container as div, Title as h1, Bold as span). -/
inductive ReactNode : Type
| text (s : String)
| node (tag : String) (children : List ReactNode)

/-- The About component of src/frontend/src/components/About.js.  It
takes no props (modelled as Unit) and returns the fixed element tree
of the rules page: the rules paragraph, the accepted-activities list
and the prizepool explanation. -/
def About (_ : Unit) : ReactNode :=
  .node "Fragment"
  [ .node "div"
    [ .node "h1" [.text "Rules"],
      .node "h4" [.text "General information"],
      .node "p"
      [ .text "Every challenge has a leaderboard. And so there\x27s no exception to this one. There will be one total leaderboard, but also one for each type of activity* (*subject to grouping). The ranking in the total leaderboard is determined by the ",
        .node "span" [.text "Top 3 places of all activity based rankings"],
        .text " of a person.",
        .node "br" [],
        .text "Regarding points, a person comming in first in an activity ranking, will get 10 points. The tenth person in that ranking will get 1 point. You can guess the rest.",
        .node "br" [],
        .text "Imagine a person with a ",
        .node "span" [.text "first place in biking"],
        .text " a ",
        .node "span" [.text "fifth place in tennis"],
        .text " and a ",
        .node "span" [.text "third place in running"],
        .text ". Their total points will be: ",
        .node "span" [.text "10 (biking) + 6 (tennis) + 8 (running) = 24"],
        .text ".",
        .node "br" [],
        .text "In case there\x27s a tie, the person with the higher value in overall moving time of all 3 categories wins the tiebreaker." ],
      .node "h4" [.text "Accepted types of activities:"],
      .node "p"
      [ .node "span" [.text "Bike"], .text ": (Mountainbike, Virtualbike, Gravelbike)",
        .node "br" [],
        .node "span" [.text "Run"], .text ": (Trailrun, Edgecase (Holleger Racewalk)",
        .node "br" [],
        .node "span" [.text "Hiking"], .text ": (Skitour, Hiking, Schneeschuhwandern)",
        .node "br" [],
        .node "span" [.text "Alpine Snow Sports"], .text ": (Ski, Snowboard)",
        .node "br" [],
        .node "span" [.text "Langlaufen / Inline"], .text ": (selbsterklärend)",
        .node "br" [],
        .node "span" [.text "Gym"], .text ": (Weighted Training, HIIT, Training)",
        .node "br" [],
        .node "span" [.text "Ball Sports"], .text ": ( Volleyball, Football, Badminton, Pickleball, Tennis, Table Tennis, etc.)",
        .node "br" [],
        .node "span" [.text "Klettern"], .text ": (Bouldern, Klettern)",
        .node "br" [],
        .node "span" [.text "Water Sports"], .text ": (Canoe, Kayak, Kitesurf, Rowing, Stand Up Paddling, Surf, Swim, Windsurf)",
        .node "br" [] ],
      .node "h4" [.text "Prizepool"],
      .node "p"
      [ .text "Each player has to deposit 10€ per month for the entire 12 months (for IBAN go to the WhatsApp Group). Depending on the amount of people participating in the challenge, the total amount of money gathered will be split into prizepool money and a smaller part for restaurant expenditures at the end of the year. The following example demonstrates earnings from the prizepool." ],
      .node "p"
      [ .text "example on 1000€:",
        .node "br" [],
        .text "1. 40% => 400", .node "br" [],
        .text "2. 25% => 250", .node "br" [],
        .text "3. 15% => 150", .node "br" [],
        .text "4. 11% => 110", .node "br" [],
        .text "5. 9% => 90", .node "br" [] ],
      .node "p"
      [ .text "The first place will get 40% of the total prize money, followed with 25% for the second place and so on. This means that only the first five places will get extra money at all. However, there will still be a great evening at the end of the year at a restaurant, which will likely be paid by the prizepool money. So, everybody has some sort of benefit at the end." ] ] ]

/-- C10: About takes no props, holds no state and renders the same
fixed element tree on every invocation: any two renders are equal, so
the rules, category list and prize-split content are constant. -/
theorem about_constant_spec :
    ∀ u v : Unit, About u = About v :=
  fun _ _ => rfl
